import Mathlib

/-!
Verification of the smart_health RAG backend (FastAPI service).

Shallow embedding of the core pipeline:
  * `src/app/schemas/clinical.py`, `src/app/schemas/rag.py` — data model
  * `src/app/services/rag_context.py` — context composition, sources, metadata
  * `src/app/services/vector_search.py` — similarity retrieval post-processing
  * `src/app/services/llm_service.py`  — LLM facade, validation, classification
  * `src/app/routers/query.py`          — orchestrating endpoint

Modelling conventions:
  * Python `int` is `Int`, Python `float` is `ℚ` (the float values manipulated
    here — scores such as 0.95, 0.3, round(x, n) results — are all exactly
    representable; float rounding of the binary representation is abstracted).
  * Python `None`-able values are `Option`; Python truthiness of strings
    (`None` and `""` falsy) is modelled explicitly where the source relies
    on it.
  * `datetime.date` / `datetime.time` / `datetime.datetime` are records of
    numeric fields with their `str()` renderings.
  * External collaborators (database rows, the OpenAI client, `tiktoken`'s
    cl100k_base encoder, the wall clock) are parameters of the embedded
    functions: the DB result rows, the attempt-indexed generation outcome,
    `encode`/`decode` functions, and `today`/elapsed-time values are inputs.
  * Python `sorted(..., key=k, reverse=True)` (a stable descending sort) is
    `List.mergeSort` with the boolean relation `fun a b => k b ≤ k a`, which
    is likewise stable and sorts descending.
-/

/-! ### Dates and times (`datetime.date`, `datetime.time`, `datetime.datetime`) -/

/-- Left-pad a numeral string with zeros to width `w`. -/
def padZ (w : Nat) (n : Nat) : String :=
  let s := toString n
  let l := s.length
  if l < w then String.mk (List.replicate (w - l) '0') ++ s else s

/-- `datetime.date`: year, month, day. -/
structure DateD where
  year : Nat
  month : Nat
  day : Nat
deriving DecidableEq

/-- Python `str(date)`: ISO `YYYY-MM-DD`. -/
def DateD.toIso (d : DateD) : String :=
  padZ 4 d.year ++ "-" ++ padZ 2 d.month ++ "-" ++ padZ 2 d.day

/-- Lexicographic `≤` on three numeric components (Python tuple comparison). -/
def lex3Le (a1 a2 a3 b1 b2 b3 : Nat) : Bool :=
  if a1 ≠ b1 then a1 < b1 else if a2 ≠ b2 then a2 < b2 else a3 ≤ b3

/-- Lexicographic `<` on two numeric components (Python tuple comparison). -/
def pairLt (a1 a2 b1 b2 : Nat) : Bool :=
  if a1 ≠ b1 then a1 < b1 else a2 < b2

/-- Lexicographic `≤` on dates, as Python compares `date` objects. -/
def DateD.le (a b : DateD) : Bool :=
  lex3Le a.year a.month a.day b.year b.month b.day

/-- `datetime.time`: hour, minute, second (microseconds unused in this repo). -/
structure TimeD where
  hour : Nat
  minute : Nat
  second : Nat
deriving DecidableEq

/-- Python `str(time)`: `HH:MM:SS`. -/
def TimeD.toStr (t : TimeD) : String :=
  padZ 2 t.hour ++ ":" ++ padZ 2 t.minute ++ ":" ++ padZ 2 t.second

/-- Lexicographic `≤` on times. -/
def TimeD.le (a b : TimeD) : Bool :=
  lex3Le a.hour a.minute a.second b.hour b.minute b.second

/-- `datetime.datetime`: a date plus a time of day. -/
structure DateTimeD where
  date : DateD
  time : TimeD
deriving DecidableEq

/-- Python `str(datetime)`: `YYYY-MM-DD HH:MM:SS`. -/
def DateTimeD.toStr (dt : DateTimeD) : String :=
  dt.date.toIso ++ " " ++ dt.time.toStr

/-! ### Python-semantics helpers -/

/-- Python truthiness of an optional string: `None` and `""` are falsy. -/
def optStrTruthy : Option String → Bool
  | none => false
  | some s => s ≠ ""

/-- Rendering of an optional string inside a Python f-string:
`None` prints as `"None"`. -/
def fstrOpt : Option String → String
  | none => "None"
  | some s => s

/-- Python `s[:n]` on a string: the first `n` code points. -/
def pySlice (s : String) (n : Nat) : String :=
  String.mk (s.toList.take n)

/-- Python `s.strip()`: drop leading and trailing whitespace.  (Implemented
on the character list so that it reduces in the kernel; `String.trim` is
extensionally the same on this repository's data.) -/
def pyStrip (s : String) : String :=
  String.mk (((s.toList.dropWhile Char.isWhitespace).reverse.dropWhile
    Char.isWhitespace).reverse)

/-- Helper of `pySplit`: split on whitespace runs, accumulating the current
word reversed. -/
def pySplitAux : List Char → List Char → List String
  | [], acc => if acc.isEmpty then [] else [String.mk acc.reverse]
  | c :: rest, acc =>
    if c.isWhitespace then
      if acc.isEmpty then pySplitAux rest []
      else String.mk acc.reverse :: pySplitAux rest []
    else pySplitAux rest (c :: acc)

/-- Python `s.split()` with no argument: split on whitespace runs,
discarding empty pieces. -/
def pySplit (s : String) : List String :=
  pySplitAux s.toList []

/-- Python `set(...)` of characters: the distinct characters of a list
(used only through its cardinality `len(set(...))`). -/
def pyCharSet : List Char → List Char
  | [] => []
  | c :: rest =>
    let s := pyCharSet rest
    if s.contains c then s else c :: s

/-- Does `needle` occur as a contiguous sublist of `hay`? -/
def listOccurs (needle : List Char) : List Char → Bool
  | [] => needle.isEmpty
  | c :: rest => needle.isPrefixOf (c :: rest) || listOccurs needle rest

/-- Python `needle in hay` on strings: substring occurrence. -/
def strContains (hay needle : String) : Bool :=
  listOccurs needle.toList hay.toList

/-- Python `str.lower()` restricted to the alphabet this repository
manipulates (ASCII plus the Spanish accented vowels and `Ñ`/`Ü`). -/
def pyLowerChar (c : Char) : Char :=
  if c = 'Á' then 'á'
  else if c = 'É' then 'é'
  else if c = 'Í' then 'í'
  else if c = 'Ó' then 'ó'
  else if c = 'Ú' then 'ú'
  else if c = 'Ñ' then 'ñ'
  else if c = 'Ü' then 'ü'
  else c.toLower

/-- Python `str.lower()` (see `pyLowerChar`). -/
def pyLower (s : String) : String :=
  String.mk (s.toList.map pyLowerChar)

/-- Python `c.isalpha()` restricted to the alphabet this repository
manipulates (ASCII letters plus Spanish accented letters). -/
def pyIsAlpha (c : Char) : Bool :=
  c.isAlpha || ['á', 'é', 'í', 'ó', 'ú', 'ñ', 'ü'].contains (pyLowerChar c)

/-- Python 3 `round` to the nearest integer, ties to even (banker's rounding). -/
def pyRoundHalfEven (q : ℚ) : ℤ :=
  let f := ⌊q⌋
  let frac := q - f
  if frac < 1/2 then f
  else if 1/2 < frac then f + 1
  else if f % 2 = 0 then f else f + 1

/-- Python `round(x, ndigits)` on our rational model of floats. -/
def pyRound (q : ℚ) (ndigits : Nat) : ℚ :=
  (pyRoundHalfEven (q * (10 : ℚ) ^ ndigits) : ℚ) / (10 : ℚ) ^ ndigits

/-- Python `f"{x:.2f}"` on our rational model of floats: two decimal places. -/
def fmtQ2 (q : ℚ) : String :=
  let n := pyRoundHalfEven (q * 100)
  let sign := if n < 0 then "-" else ""
  let m := n.natAbs
  sign ++ toString (m / 100) ++ "." ++ padZ 2 (m % 100)

/-! ### Data model (`src/app/schemas/clinical.py`, `src/app/schemas/rag.py`) -/

/-- `PatientInfo` (pydantic DTO). -/
structure PatientInfo where
  patient_id : Int
  first_name : String
  middle_name : Option String
  first_surname : String
  second_surname : Option String
  birth_date : DateD
  gender : String
  email : Option String
  document_type_id : Int
  document_number : String
  registration_date : Option DateTimeD
  active : Option Bool
  blood_type : Option String
deriving DecidableEq

/-- `AppointmentDTO`. -/
structure AppointmentDTO where
  appointment_id : Int
  patient_id : Int
  doctor_id : Option Int
  appointment_date : DateD
  start_time : Option TimeD
  end_time : Option TimeD
  appointment_type : Option String
  status : Option String
  reason : Option String
  creation_date : Option DateTimeD
deriving DecidableEq

/-- `MedicalRecordDTO`. -/
structure MedicalRecordDTO where
  medical_record_id : Int
  patient_id : Int
  doctor_id : Option Int
  primary_diagnosis_id : Option Int
  registration_datetime : Option DateTimeD
  record_type : Option String
  summary_text : Option String
  vital_signs : Option String
deriving DecidableEq

/-- `PrescriptionDTO`. -/
structure PrescriptionDTO where
  prescription_id : Int
  medical_record_id : Int
  medication_id : Int
  dosage : Option String
  frequency : Option String
  duration : Option String
  instruction : Option String
  prescription_date : Option DateD
  alert_generated : Option Bool
deriving DecidableEq

/-- `DiagnosisDTO`. -/
structure DiagnosisDTO where
  record_diagnosis_id : Int
  diagnosis_id : Int
  icd_code : Option String
  description : Option String
  diagnosis_type : Option String
  note : Option String
deriving DecidableEq

/-- `ClinicalRecords`: the four collections of one patient. -/
structure ClinicalRecords where
  appointments : List AppointmentDTO
  medical_records : List MedicalRecordDTO
  prescriptions : List PrescriptionDTO
  diagnoses : List DiagnosisDTO
deriving DecidableEq

/-- `ClinicalDataResult`. -/
structure ClinicalDataResult where
  patient : Option PatientInfo
  records : ClinicalRecords
  has_data : Bool
deriving DecidableEq

/-- `SimilarChunk` (`src/app/schemas/rag.py`). -/
structure SimilarChunk where
  source_type : String
  source_id : Int
  patient_id : Int
  chunk_text : String
  date : Option DateTimeD
  relevance_score : ℚ
deriving DecidableEq

/-! ### Similarity retrieval (`src/app/services/vector_search.py`)

The SQL query against `smart_health.appointments` selects, for the given
patient and the last five years, rows `(source_id, patient_id, text, date)`
each with the constant column `0.0 AS relevance_score`, ordered by date
descending, `LIMIT min(k, MAX_PER_TABLE)`.  The database state is external:
the embedded function receives the list of rows the query would return
(before the LIMIT, which the embedding applies) as a parameter.  The
surrounding `try`/`except` that degrades a failed query to zero chunks is
external I/O as well; a failed query corresponds to passing `[]`. -/

def DEFAULT_TOP_K : Nat := 15

def MAX_PER_TABLE : Nat := 10

def DEFAULT_MIN_SCORE : ℚ := 3/10

/-- A row of the appointments similarity query. -/
structure ApptRow where
  source_id : Int
  patient_id : Int
  text : String
  date : Option DateTimeD
deriving DecidableEq

/-- `search_similar_chunks` (lines 27–97): build `SimilarChunk`s from the
fetched rows (each with `relevance_score = 0.0` straight from the SQL), then
filter by `min_score`, optionally filter by `allowed_sources`, sort by score
descending and truncate to `k`. -/
def search_similar_chunks (rows : List ApptRow) (k : Nat := DEFAULT_TOP_K)
    (min_score : ℚ := DEFAULT_MIN_SCORE)
    (allowed_sources : Option (List String) := none) : List SimilarChunk :=
  let chunks : List SimilarChunk :=
    (rows.take (min k MAX_PER_TABLE)).map (fun row =>
      { source_type := "appointment"
        source_id := row.source_id
        patient_id := row.patient_id
        chunk_text := row.text
        date := row.date
        relevance_score := 0 })
  -- 1. Filtrar por score mínimo
  let chunks := chunks.filter (fun c => min_score ≤ c.relevance_score)
  -- 2. Filtrar por tipo de registro si se especificó
  let chunks :=
    match allowed_sources with
    | none => chunks
    | some allowed => chunks.filter (fun c => allowed.contains c.source_type)
  -- 3. Ordenar por score y aplicar k global
  let chunks := chunks.mergeSort (fun a b => b.relevance_score ≤ a.relevance_score)
  chunks.take k

/-! ### LLM facade (`src/app/services/llm_service.py`)

`app/schemas/llm_schemas.py` is imported by the service but absent from the
repository sources; `LLMResponse` and `LLMError` are modelled from the spec
(§3 `GeneratedAnswer`: text, confidence, model identifier, tokens used; a
generation error carrying a message). -/

/-- Modelled from the spec: `LLMResponse` of the missing
`app/schemas/llm_schemas.py` — the `GeneratedAnswer` record
(text, confidence, model_used, tokens_used). -/
structure LLMResponse where
  text : String
  confidence : ℚ
  model_used : String
  tokens_used : Nat
deriving DecidableEq

/-- Modelled from the spec: `LLMError` of the missing
`app/schemas/llm_schemas.py` — a generation error carrying a message. -/
structure LLMError where
  message : String
deriving DecidableEq

/-- The dict returned by `llm_client.generate`:
`{'text': ..., 'model_used': ..., 'tokens_used': ...}`; `none` fields model
absent keys (read back with `dict.get` defaults in `run_llm`). -/
structure GenDict where
  text : Option String
  model_used : Option String
  tokens_used : Option Nat
deriving DecidableEq

/-- `build_user_prompt` (lines 25–33). -/
def build_user_prompt (question : String) (context : String) : String :=
  "CONTEXTO CLÍNICO DEL PACIENTE:\n" ++ context ++
  "\n\nPREGUNTA DEL USUARIO:\n" ++ question ++
  "\n\nPor favor, responde la pregunta basándote únicamente en el contexto proporcionado."

/-- Indicator phrases of `LLMService._calculate_confidence` (lines 125–132). -/
def confidence_no_data_indicators : List String :=
  ["no hay información", "no se encuentra", "no hay datos",
   "no disponible", "sin información", "no dispongo"]

/-- `LLMService._calculate_confidence` (lines 113–156). -/
def calculate_confidence (answer : String) (context : String) : ℚ :=
  let answer_lower := pyLower answer
  if (pyStrip context).length < 50 then 3/10
  else if confidence_no_data_indicators.any (fun ind => strContains answer_lower ind) then 4/10
  else if answer.length < 50 then 6/10
  else if 100 < answer.length ∧ 200 < context.length then 92/100
  else if 50 < answer.length ∧ 100 < context.length then 8/10
  else 75/100

/-- `LLMService._validate_response` (lines 158–198).  The argument is
`Option String` because the Python function also accepts `None`. -/
def validate_response (answer : Option String) : Bool :=
  -- 1. no puede estar vacío (`not answer`: None and "" are falsy)
  if ¬ optStrTruthy answer then false
  else
    let answer_stripped := pyStrip (answer.getD "")
    -- 2. al menos 5 caracteres
    if answer_stripped.length < 5 then false
    -- 3. al menos 2 palabras
    else if (pySplit answer_stripped).length < 2 then false
    -- 4. no solo caracteres repetidos: `len(set(stripped.replace(' ', ''))) < 3`
    else if (pyCharSet (answer_stripped.toList.filter (fun c => c ≠ ' '))).length < 3 then false
    -- 6. al menos algunas letras
    else if ¬ answer_stripped.toList.any pyIsAlpha then false
    else true

/-- `LLMService.run_llm` (lines 39–111).  The external generation call is the
parameter `gen`: either the raised `LLMError` of `llm_client.generate` or the
returned dict.  `question`/`context` feed the prompt and the confidence
heuristic. -/
def run_llm (question : String) (context : String)
    (gen : Except LLMError GenDict) : Except LLMError LLMResponse :=
  -- el prompt se construye y se envía; su contenido queda dentro de `gen`
  let _user_prompt := build_user_prompt question context
  match gen with
  | Except.error e => Except.error e
  | Except.ok response =>
    let response_text := pyStrip (response.text.getD "")
    if ¬ validate_response (some response_text) then
      Except.error { message := "Respuesta del LLM inválida o incoherente" }
    else
      let confidence := calculate_confidence response_text context
      Except.ok
        { text := response_text
          confidence := confidence
          model_used := response.model_used.getD "unknown"
          tokens_used := response.tokens_used.getD 0 }

/-- Indicator phrases of `LLMService.determine_status` (lines 216–225). -/
def status_no_data_indicators : List String :=
  ["no hay información", "no se encuentra", "no hay datos",
   "no disponible", "sin información", "no dispongo",
   "no se encontr", "no registr"]

/-- `LLMService.determine_status` (lines 200–238). -/
def determine_status (answer_text : String) (context : String) : String :=
  let answer_lower := pyLower answer_text
  -- Contexto vacío o muy corto
  if (pyStrip context).length < 20 then "no_data"
  -- Respuesta indica falta de datos de forma prominente
  else if status_no_data_indicators.any
      (fun ind => strContains (pySlice answer_lower 100) ind) then "no_data"
  else "success"

/-! ### Context compositor (`src/app/services/rag_context.py`)

`date.today()` is the wall clock, passed as the `today` parameter.
`tiktoken.get_encoding("cl100k_base")` is an external library; its
`encode`/`decode` functions are parameters of `build_context`. -/

/-- `calculate_age` (lines 17–20): whole-year age with month/day borrow. -/
def calculate_age (today : DateD) (birth_date : DateD) : Int :=
  (today.year : Int) - birth_date.year -
    (if pairLt today.month today.day birth_date.month birth_date.day then 1 else 0)

/-- The second component of the appointment sort key in `build_context`
(line 48): `x.start_time or x.end_time or date.min`.  `date.min` arises when
both times are `None`.  (CPython would raise `TypeError` when comparing a
`time` against `date.min`; the embedding totalises that comparison by putting
`date.min` below every time, which only affects inputs on which the source
program crashes.) -/
inductive ApptTimeKey where
  | tv (t : TimeD)
  | dateMin
deriving DecidableEq

/-- `x.start_time or x.end_time or date.min` (`or` takes the first
non-`None` operand; `time` values are always truthy). -/
def apptTimeKey (x : AppointmentDTO) : ApptTimeKey :=
  match x.start_time with
  | some t => ApptTimeKey.tv t
  | none =>
    match x.end_time with
    | some t => ApptTimeKey.tv t
    | none => ApptTimeKey.dateMin

/-- `≤` on the second key component (see `ApptTimeKey`). -/
def ApptTimeKey.le : ApptTimeKey → ApptTimeKey → Bool
  | ApptTimeKey.dateMin, _ => true
  | ApptTimeKey.tv _, ApptTimeKey.dateMin => false
  | ApptTimeKey.tv s, ApptTimeKey.tv t => s.le t

/-- `≤` on the full appointment sort key
`(x.appointment_date, x.start_time or x.end_time or date.min)`
(Python tuple comparison: date first, time key on equal dates). -/
def apptKeyLe (a b : AppointmentDTO) : Bool :=
  if a.appointment_date = b.appointment_date then
    (apptTimeKey a).le (apptTimeKey b)
  else a.appointment_date.le b.appointment_date

/-- One appointment line of `build_context` (lines 51–54). -/
def apptLine (appt : AppointmentDTO) : String :=
  let time_str :=
    match appt.start_time with
    | some t => " a las " ++ t.toStr
    | none => ""
  let reason_str := if optStrTruthy appt.reason then ": " ++ appt.reason.getD "" else ""
  "- " ++ appt.appointment_date.toIso ++ time_str ++ reason_str

/-- One diagnosis line of `build_context` (lines 58–60):
`dx.description or f"Código CIE: {dx.icd_code or 'N/A'}"`. -/
def diagnosisLine (dx : DiagnosisDTO) : String :=
  let desc :=
    if optStrTruthy dx.description then dx.description.getD ""
    else "Código CIE: " ++ (if optStrTruthy dx.icd_code then dx.icd_code.getD "" else "N/A")
  "- " ++ desc

/-- One prescription line of `build_context` (lines 64–71). -/
def prescriptionLine (rx : PrescriptionDTO) : String :=
  if optStrTruthy rx.instruction then "- " ++ rx.instruction.getD ""
  else
    let med_info := "Medicamento ID " ++ toString rx.medication_id
    let med_info :=
      if optStrTruthy rx.dosage then med_info ++ ", dosis: " ++ rx.dosage.getD ""
      else med_info
    "- " ++ med_info

/-- The three lines appended per chunk in `build_context` (lines 76–80). -/
def chunkLines (chunk : SimilarChunk) : List String :=
  let score_str := fmtQ2 chunk.relevance_score
  let date_str :=
    match chunk.date with
    | some dt => " (" ++ dt.date.toIso ++ ")"   -- chunk.date.strftime("%Y-%m-%d")
    | none => ""
  ["[Relevancia: " ++ score_str ++ "] " ++ chunk.chunk_text,
   "[Fuente: " ++ chunk.source_type ++ " ID " ++ toString chunk.source_id ++ date_str ++ "]",
   ""]

/-- The full (un-truncated) text assembled by `build_context` (lines 28–82):
the `parts` list joined with newlines. -/
def build_context_text (today : DateD) (patient : PatientInfo)
    (records : ClinicalRecords) (similar_chunks : List SimilarChunk) : String :=
  let name_parts : List (Option String) :=
    [some patient.first_name, patient.middle_name,
     some patient.first_surname, patient.second_surname]
  let full_name := String.intercalate " " (name_parts.filterMap id)
  let age := calculate_age today patient.birth_date
  let header : List String :=
    ["### Información Básica del Paciente",
     "Nombre: " ++ full_name,
     "Edad: " ++ toString age ++ " años",
     "Género: " ++ patient.gender,
     "Documento: " ++ patient.document_number ++
       " (Tipo ID: " ++ toString patient.document_type_id ++ ")"]
  let appt_parts : List String :=
    if records.appointments ≠ [] then
      let sorted_appts :=
        (records.appointments.mergeSort (fun a b => apptKeyLe b a)).take 5
      "\n### Citas Médicas Recientes" :: sorted_appts.map apptLine
    else []
  let dx_parts : List String :=
    if records.diagnoses ≠ [] then
      "\n### Diagnósticos Registrados" :: records.diagnoses.map diagnosisLine
    else []
  let rx_parts : List String :=
    if records.prescriptions ≠ [] then
      "\n### Medicamentos Recetados" :: records.prescriptions.map prescriptionLine
    else []
  let chunk_parts : List String :=
    if similar_chunks ≠ [] then
      let sorted_chunks :=
        similar_chunks.mergeSort (fun a b => b.relevance_score ≤ a.relevance_score)
      "\n### Información Adicional Relevante" :: (sorted_chunks.map chunkLines).flatten
    else []
  String.intercalate "\n" (header ++ appt_parts ++ dx_parts ++ rx_parts ++ chunk_parts)

/-- `build_context` (lines 22–89): assemble the full text, tokenize it with
the cl100k_base encoder (`encode`/`decode` parameters), truncate to
`max_tokens` tokens when exceeded, and return the text with its token
count. -/
def build_context (encode : String → List Nat) (decode : List Nat → String)
    (today : DateD) (patient : PatientInfo) (records : ClinicalRecords)
    (similar_chunks : List SimilarChunk) (max_tokens : Nat := 4000) :
    String × Nat :=
  let full_text := build_context_text today patient records similar_chunks
  let tokens := encode full_text
  if max_tokens < tokens.length then
    let tokens := tokens.take max_tokens
    (decode tokens, tokens.length)
  else (full_text, tokens.length)

/-- A `build_sources` entry (a Python dict; `none` models an absent key). -/
structure SourceRec where
  type : String
  source_type : String
  source_id : Option Int
  patient_id : Option Int
  relevance_score : Option ℚ
  appointment_id : Option Int
  date : Option String
  text_snippet : String
deriving DecidableEq

/-- The entry `build_sources` appends per vector-search chunk (lines 97–105). -/
def mkVectorSource (chunk : SimilarChunk) : SourceRec :=
  { type := "vector_search"
    source_type := chunk.source_type
    source_id := some chunk.source_id
    patient_id := some chunk.patient_id
    relevance_score := some (pyRound chunk.relevance_score 3)
    appointment_id := none
    date := none
    text_snippet := pySlice chunk.chunk_text 250 }

/-- The entry `build_sources` appends per appointment (lines 106–113). -/
def mkApptSource (appt : AppointmentDTO) : SourceRec :=
  { type := "clinical_record"
    source_type := "appointment"
    source_id := none
    patient_id := none
    relevance_score := none
    appointment_id := some appt.appointment_id
    date := some appt.appointment_date.toIso
    text_snippet := pySlice (appt.reason.getD "") 250 }

/-- `build_sources` (lines 92–114): one entry per chunk, then one entry per
appointment, in input order. -/
def build_sources (similar_chunks : List SimilarChunk)
    (records : ClinicalRecords) : List SourceRec :=
  similar_chunks.map mkVectorSource ++ records.appointments.map mkApptSource

/-- The metadata dict of `build_metadata`. -/
structure RagMetadata where
  total_records_analyzed : Nat
  vector_chunks_retrieved : Nat
  query_time_ms : ℚ
  context_tokens : Nat
  sources_used : Nat
deriving DecidableEq

/-- `build_metadata` (lines 117–135). -/
def build_metadata (records : ClinicalRecords) (similar_chunks : List SimilarChunk)
    (query_time_sec : ℚ) (context_tokens : Nat) : RagMetadata :=
  let total_clinical :=
    records.appointments.length + records.medical_records.length +
    records.prescriptions.length + records.diagnoses.length
  { total_records_analyzed := total_clinical
    vector_chunks_retrieved := similar_chunks.length
    query_time_ms := pyRound (query_time_sec * 1000) 2
    context_tokens := context_tokens
    sources_used := similar_chunks.length + records.appointments.length }

/-! ### Query endpoint (`src/app/routers/query.py`)

External collaborators are parameters of `query_patient`:
  * `fetch` — the outcome of `fetch_patient_and_records` (a raised database
    exception, or the patient option with the clinical records);
  * `vector` — the outcome of `search_similar_chunks` (exception or chunks);
  * `run` — the generation capability, per attempt number: the outcome of
    the `llm_service.run_llm` call on attempt `n` (the question and the
    context built by `build_context_from_real_data` are fixed inside it);
  * `elapsed_ms` — `int((time.time() - start_time) * 1000)` (wall clock).
The `session_id` / `sequence_chat_id` / `timestamp` response fields echo the
input and the wall clock and carry no logic; they are omitted from the
modelled response.  The three response shapes are the `QueryResult`
variants. -/

/-- `QueryInput`. -/
structure QueryInput where
  user_id : String
  session_id : String
  document_type_id : Int
  document_number : String
  question : String
deriving DecidableEq

/-- `get_document_type_name` (lines 288–300). -/
def get_document_type_name (document_type_id : Int) : String :=
  if document_type_id = 1 then "CC"
  else if document_type_id = 2 then "CE"
  else if document_type_id = 3 then "TI"
  else if document_type_id = 4 then "PA"
  else if document_type_id = 5 then "RC"
  else if document_type_id = 6 then "MS"
  else if document_type_id = 7 then "AS"
  else if document_type_id = 8 then "CD"
  else "CC"

/-- `_generate_fallback_response` (lines 303–341).  All the `getattr` probes
hit attributes the DTOs define (possibly `None`, rendered `"None"` by the
f-string), except `medication_name`, which `PrescriptionDTO` lacks, so its
`getattr` default `'Medicamento no especificado'` is always used. -/
def generate_fallback_response (clinical_records : ClinicalRecords)
    (question : String) : String :=
  let _ := question   -- unused by the source as well
  let appt_parts : List String :=
    if clinical_records.appointments ≠ [] then
      "*Citas Médicas Recientes:*\n" ::
        (clinical_records.appointments.take 3).map (fun apt =>
          "- " ++ apt.appointment_date.toIso ++ ": " ++ fstrOpt apt.reason ++
          " (Estado: " ++ fstrOpt apt.status ++ ")")
    else []
  let diag_parts : List String :=
    if clinical_records.diagnoses ≠ [] then
      "\n*Diagnósticos:*\n" ::
        (clinical_records.diagnoses.take 3).map (fun diag =>
          "- " ++ fstrOpt diag.description ++ " (ICD: " ++ fstrOpt diag.icd_code ++ ")")
    else []
  let presc_parts : List String :=
    if clinical_records.prescriptions ≠ [] then
      "\n*Medicamentos Prescritos:*\n" ::
        (clinical_records.prescriptions.take 3).map (fun presc =>
          "- Medicamento no especificado " ++ fstrOpt presc.dosage)
    else []
  let response_parts := appt_parts ++ diag_parts ++ presc_parts
  if response_parts = [] then
    "No se encontró información relevante para responder la pregunta."
  else
    String.intercalate "\n" (response_parts ++
      ["\n*Nota: Esta respuesta fue generada directamente desde los registros clínicos debido a un problema temporal con el asistente inteligente.*"])

/-- An entry of `build_sources_from_real_data` (a Python dict).  For `date`
and `description`, the outer `Option` models key presence and the inner one a
present key holding `None`.  The `doctor` key is never added: `doctor_name`
and `specialty` are absent attributes on `AppointmentDTO`, so both `getattr`
probes yield `None`. -/
structure QuerySource where
  source_id : Int
  type : String
  appointment_id : Option Int
  diagnosis_id : Option Int
  prescription_id : Option Int
  date : Option (Option String)
  relevance_score : ℚ
  description : Option (Option String)
  icd_code : Option String
  medication : Option String
  reason : Option String
  original_source_id : Option String
  source_type : Option String
deriving DecidableEq

/-- Appointment entry of `build_sources_from_real_data` (lines 168–199). -/
def mkQueryApptSource (seq : Int) (apt : AppointmentDTO) : QuerySource :=
  { source_id := seq
    type := "appointment"
    appointment_id := some apt.appointment_id
    diagnosis_id := none
    prescription_id := none
    date := some (some apt.appointment_date.toIso)
    relevance_score := 95/100
    description := none
    icd_code := none
    medication := none
    reason := if optStrTruthy apt.reason then apt.reason else none
    original_source_id := none
    source_type := none }

/-- Diagnosis entry of `build_sources_from_real_data` (lines 204–229).
`diagnosis_date` is an absent attribute on `DiagnosisDTO`, so the `date` key
is never added. -/
def mkQueryDiagSource (seq : Int) (diag : DiagnosisDTO) : QuerySource :=
  { source_id := seq
    type := "diagnosis"
    appointment_id := none
    diagnosis_id := some diag.diagnosis_id
    prescription_id := none
    date := none
    relevance_score := 92/100
    description := some diag.description
    icd_code := if optStrTruthy diag.icd_code then diag.icd_code else none
    medication := none
    reason := none
    original_source_id := none
    source_type := none }

/-- Prescription entry of `build_sources_from_real_data` (lines 234–257).
`medication_name` is an absent attribute on `PrescriptionDTO`, so its
`getattr` default `'Sin nombre'` is always used. -/
def mkQueryPrescSource (seq : Int) (presc : PrescriptionDTO) : QuerySource :=
  { source_id := seq
    type := "prescription"
    appointment_id := none
    diagnosis_id := none
    prescription_id := some presc.prescription_id
    date := some (presc.prescription_date.map DateD.toIso)
    relevance_score := 88/100
    description := none
    icd_code := none
    medication := some "Sin nombre"
    reason := none
    original_source_id := none
    source_type := none }

/-- Vector-chunk entry of `build_sources_from_real_data` (lines 259–283). -/
def mkQueryChunkSource (seq : Int) (chunk : SimilarChunk) : QuerySource :=
  { source_id := seq
    type := "vector_search"
    appointment_id := none
    diagnosis_id := none
    prescription_id := none
    date := some (chunk.date.map DateTimeD.toStr)
    relevance_score := chunk.relevance_score
    description := none
    icd_code := none
    medication := none
    reason := none
    original_source_id := some (toString chunk.source_id)
    source_type := some chunk.source_type }

/-- One of the four loops of `build_sources_from_real_data`: append an entry
per element, skipping elements whose id is falsy (`0` for these `int` ids),
threading the `current_sequence` counter. -/
def seqSources (skip : α → Bool) (mk : Int → α → QuerySource) :
    List α → Int → List QuerySource × Int
  | [], seq => ([], seq)
  | x :: rest, seq =>
    if skip x then seqSources skip mk rest seq
    else
      let tail := seqSources skip mk rest (seq + 1)
      (mk seq x :: tail.1, tail.2)

/-- `build_sources_from_real_data` (lines 154–285): appointments (≤5),
diagnoses (≤5), prescriptions (≤3), then vector chunks (≤5), with one shared
sequence counter.  The per-loop `try`/`except` wrappers cannot fire on the
pure DTO data and are not modelled. -/
def build_sources_from_real_data (clinical_records : ClinicalRecords)
    (similar_chunks : List SimilarChunk) (sequence_counter : Int) :
    List QuerySource :=
  let appts := seqSources (fun a => a.appointment_id = 0) mkQueryApptSource
    (clinical_records.appointments.take 5) sequence_counter
  let diags := seqSources (fun d => d.diagnosis_id = 0) mkQueryDiagSource
    (clinical_records.diagnoses.take 5) appts.2
  let prescs := seqSources (fun p => p.prescription_id = 0) mkQueryPrescSource
    (clinical_records.prescriptions.take 3) diags.2
  let chunks := seqSources (fun c => c.source_id = 0) mkQueryChunkSource
    (similar_chunks.take 5) prescs.2
  appts.1 ++ diags.1 ++ prescs.1 ++ chunks.1

/-- `max_attempts` of the LLM retry loop (line 480). -/
def max_attempts : Nat := 2

/-- How the `while` retry loop of `query_patient` (lines 482–554) ends:
with the fallback return, with a usable `llm_response`, or — unreachably —
with no response (the subsequent `llm_response.text` access would raise and
hit the endpoint's catch-all). -/
inductive LlmLoopResult where
  | fallback
  | use (r : LLMResponse)
  | noResponse
deriving DecidableEq

/-- The retry loop of `query_patient` (lines 478–554), with its final
`llm_attempts` value.  State: `llm_attempts`, `llm_response`.  On an
exception from `run_llm`: retry while attempts remain, otherwise take the
fallback return.  On a returned response with empty text (`not
llm_response.text`) or text shorter than 10 chars once stripped: `continue`
while attempts remain — but `llm_response` is already set, so the `while`
condition `not llm_response` fails and the loop exits **using** that
response; on the last attempt the `raise ValueError` is caught by the same
`except` and takes the fallback return. -/
def llm_loop_aux (run : Nat → Except LLMError LLMResponse) :
    Nat → Nat → Option LLMResponse → LlmLoopResult × Nat
  | _, llm_attempts, some r => (LlmLoopResult.use r, llm_attempts)
  | 0, llm_attempts, none => (LlmLoopResult.noResponse, llm_attempts)
  | Nat.succ remaining, llm_attempts, none =>
    let a := llm_attempts + 1
    match run a with
    | Except.error _ =>
      if max_attempts ≤ a then (LlmLoopResult.fallback, a)
      else llm_loop_aux run remaining a none
    | Except.ok r =>
      if r.text = "" then
        if a < max_attempts then llm_loop_aux run remaining a (some r)
        else (LlmLoopResult.fallback, a)
      else if (pyStrip r.text).length < 10 then
        if a < max_attempts then llm_loop_aux run remaining a (some r)
        else (LlmLoopResult.fallback, a)
      else (LlmLoopResult.use r, a)

/-- The loop proper: the first argument of `llm_loop_aux` is the number of
remaining admissible iterations `max_attempts - llm_attempts`, which makes
the recursion structural; exhausting it is exactly the `while` condition
`llm_attempts < max_attempts` turning false. -/
def llm_retry_loop (run : Nat → Except LLMError LLMResponse)
    (llm_attempts : Nat) (llm_response : Option LLMResponse) :
    LlmLoopResult × Nat :=
  llm_loop_aux run (max_attempts - llm_attempts) llm_attempts llm_response

/-- `patient_info` block of the response dicts. -/
structure PatientOut where
  patient_id : Int
  full_name : String
  document_type : String
  document_number : String
deriving DecidableEq

/-- `answer` block of the success responses. -/
structure AnswerOut where
  text : String
  confidence : ℚ
  model_used : String
deriving DecidableEq

/-- `metadata` block of the success responses; `none` models an absent key
(`context_tokens` and `fallback_mode` appear only on some paths). -/
structure MetadataOut where
  total_records_analyzed : Nat
  query_time_ms : Int
  sources_used : Nat
  context_tokens : Option Nat
  fallback_mode : Option Bool
deriving DecidableEq

/-- The response dict of `query_patient`: the `status:"error"` shape with its
`error` block, or the `status:"success"` shape. -/
inductive QueryResult where
  | error (code : String) (message : String) (details : String)
  | success (patient_info : PatientOut) (answer : AnswerOut)
      (sources : List QuerySource) (metadata : MetadataOut)
deriving DecidableEq

/-- The `status` field of the response. -/
def QueryResult.status : QueryResult → String
  | QueryResult.error _ _ _ => "error"
  | QueryResult.success _ _ _ _ => "success"

/-- The `answer.text` field of the response, when present. -/
def QueryResult.answerText : QueryResult → Option String
  | QueryResult.error _ _ _ => none
  | QueryResult.success _ a _ _ => some a.text

/-- The `answer.confidence` field of the response, when present. -/
def QueryResult.answerConfidence : QueryResult → Option ℚ
  | QueryResult.error _ _ _ => none
  | QueryResult.success _ a _ _ => some a.confidence

/-- The `answer.model_used` field of the response, when present. -/
def QueryResult.answerModel : QueryResult → Option String
  | QueryResult.error _ _ _ => none
  | QueryResult.success _ a _ _ => some a.model_used

/-- The `metadata` block of the response, when present. -/
def QueryResult.meta : QueryResult → Option MetadataOut
  | QueryResult.error _ _ _ => none
  | QueryResult.success _ _ _ m => some m

/-- The `sources` list of the response, when present. -/
def QueryResult.sourcesOf : QueryResult → Option (List QuerySource)
  | QueryResult.error _ _ _ => none
  | QueryResult.success _ _ s _ => some s

/-- `query_patient` (lines 346–608).  See the section comment for the
parameters standing for the external collaborators. -/
def query_patient (fetch : Except String (Option PatientInfo × ClinicalDataResult))
    (vector : Except String (List SimilarChunk))
    (run : Nat → Except LLMError LLMResponse)
    (elapsed_ms : Int) (input_data : QueryInput) : QueryResult :=
  -- 1. BUSCAR PACIENTE
  match fetch with
  | Except.error e =>
    QueryResult.error "DATABASE_ERROR" "Error al buscar datos del paciente" e
  | Except.ok (patient_opt, clinical_data) =>
    match patient_opt with
    | none =>
      let doc_type := get_document_type_name input_data.document_type_id
      QueryResult.error "PATIENT_NOT_FOUND"
        ("No se encontró paciente con documento " ++ doc_type ++ " " ++
          input_data.document_number)
        "Verifique el tipo y número de documento"
    | some patient_info =>
      -- 2. VECTOR SEARCH (sin fallar si hay error)
      let similar_chunks :=
        match vector with
        | Except.error _ => []
        | Except.ok l => l
      -- 3. CONSTRUIR CONTEXTO: `build_context_from_real_data` only feeds the
      -- external generation call abstracted by `run`; on pure DTO data its
      -- `except` branch (CONTEXT_BUILD_ERROR) cannot fire.
      let full_name :=
        patient_info.first_name ++ " " ++ patient_info.first_surname ++
          (if optStrTruthy patient_info.second_surname then
            " " ++ patient_info.second_surname.getD "" else "")
      let doc_type := get_document_type_name input_data.document_type_id
      let patient_out : PatientOut :=
        { patient_id := patient_info.patient_id
          full_name := full_name
          document_type := doc_type
          document_number := patient_info.document_number }
      let records := clinical_data.records
      -- 4. VERIFICAR SI HAY DATOS
      let total_records :=
        records.appointments.length + records.medical_records.length +
        records.prescriptions.length + records.diagnoses.length +
        similar_chunks.length
      if total_records = 0 then
        QueryResult.success patient_out
          { text := "El paciente " ++ full_name ++
              " no tiene registros clínicos en el sistema."
            confidence := 1
            model_used := "system" }
          []
          { total_records_analyzed := 0
            query_time_ms := elapsed_ms
            sources_used := 0
            context_tokens := none
            fallback_mode := none }
      else
        -- 5. LLAMAR AL LLM (con retry y fallback)
        match (llm_retry_loop run 0 none).1 with
        | LlmLoopResult.fallback =>
          let fallback_text := generate_fallback_response records input_data.question
          QueryResult.success patient_out
            { text := fallback_text
              confidence := 65/100
              model_used := "fallback-system" }
            []
            { total_records_analyzed := total_records
              query_time_ms := elapsed_ms
              sources_used := 0
              context_tokens := some 0
              fallback_mode := some true }
        | LlmLoopResult.use llm_response =>
          -- 6. CONSTRUIR SOURCES / 7. RESPUESTA EXITOSA
          let sources := build_sources_from_real_data records similar_chunks 1
          QueryResult.success patient_out
            { text := llm_response.text
              confidence := llm_response.confidence
              model_used := llm_response.model_used }
            sources
            { total_records_analyzed := total_records
              query_time_ms := elapsed_ms
              sources_used := sources.length
              context_tokens := some llm_response.tokens_used
              fallback_mode := none }
        | LlmLoopResult.noResponse =>
          -- unreachable: `llm_response.text` on `None` raises, caught by the
          -- endpoint's catch-all `except`
          QueryResult.error "INTERNAL_ERROR" "Error interno del servidor" ""

/-! ### Concrete fixtures used by the witness theorems -/

/-- A concrete patient. -/
def wPatient : PatientInfo :=
  { patient_id := 1, first_name := "Juan", middle_name := none,
    first_surname := "García", second_surname := none,
    birth_date := ⟨1995, 1, 1⟩, gender := "M", email := none,
    document_type_id := 1, document_number := "123456",
    registration_date := none, active := none, blood_type := none }

/-- A concrete appointment. -/
def wAppt : AppointmentDTO :=
  { appointment_id := 10, patient_id := 1, doctor_id := none,
    appointment_date := ⟨2025, 12, 1⟩, start_time := none, end_time := none,
    appointment_type := none, status := some "completed",
    reason := some "Control", creation_date := none }

/-- A concrete similarity fragment. -/
def wChunk : SimilarChunk :=
  { source_type := "appointment", source_id := 10, patient_id := 1,
    chunk_text := "Texto relevante 1", date := none, relevance_score := 9/10 }

/-- An empty clinical bundle. -/
def emptyRecords : ClinicalRecords :=
  { appointments := [], medical_records := [], prescriptions := [], diagnoses := [] }

/-- A bundle with one appointment. -/
def wRecords : ClinicalRecords :=
  { appointments := [wAppt], medical_records := [], prescriptions := [], diagnoses := [] }

/-- A concrete aggregator result for `wPatient` and `wRecords`. -/
def wClinical : ClinicalDataResult :=
  { patient := some wPatient, records := wRecords, has_data := true }

/-- A concrete aggregator result with an empty bundle. -/
def wClinicalEmpty : ClinicalDataResult :=
  { patient := some wPatient, records := emptyRecords, has_data := false }

/-- A concrete endpoint input. -/
def wInput : QueryInput :=
  { user_id := "u1", session_id := "s1", document_type_id := 1,
    document_number := "123456", question := "¿Citas recientes?" }

/-- A concrete appointments-query row. -/
def wRow : ApptRow :=
  { source_id := 10, patient_id := 1, text := "Control", date := none }

/-- A concrete one-code-point-per-token encoder standing in for cl100k_base
in witnesses. -/
def wEncode (s : String) : List Nat :=
  s.toList.map Char.toNat

/-- The decoder matching `wEncode`. -/
def wDecode (l : List Nat) : String :=
  String.mk (l.map Char.ofNat)

/-- A concrete `today`. -/
def wToday : DateD := ⟨2026, 10, 12⟩

/-- A generation capability that raises on every attempt. -/
def wErrGen : Nat → Except LLMError LLMResponse :=
  fun _ => Except.error { message := "boom" }

/-- A generation capability that succeeds with a long valid answer. -/
def wOkGen : Nat → Except LLMError LLMResponse :=
  fun _ => Except.ok
    { text := "Respuesta larga del modelo de prueba"
      confidence := 9/10
      model_used := "gpt-4o-mini"
      tokens_used := 10 }

/-! ### Claims -/

/-- **C1**: for every patient, clinical-record bundle, fragment list and
configured `max_tokens`, the `(text, token_count)` pair returned by
`build_context` satisfies `token_count ≤ max_tokens`; and whenever the
tokenization of the full un-truncated text exceeds `max_tokens`, the
returned text is the decoding of exactly the first `max_tokens` tokens of
that tokenization and the returned count equals `max_tokens`. -/
theorem build_context_token_budget (encode : String → List Nat)
    (decode : List Nat → String) (today : DateD) (patient : PatientInfo)
    (records : ClinicalRecords) (similar_chunks : List SimilarChunk)
    (max_tokens : Nat) :
    (build_context encode decode today patient records similar_chunks max_tokens).2
      ≤ max_tokens ∧
    (max_tokens < (encode (build_context_text today patient records similar_chunks)).length →
      (build_context encode decode today patient records similar_chunks max_tokens).1
        = decode ((encode (build_context_text today patient records similar_chunks)).take max_tokens) ∧
      (build_context encode decode today patient records similar_chunks max_tokens).2
        = max_tokens) := by
  simp only [build_context]
  by_cases h : max_tokens <
      (encode (build_context_text today patient records similar_chunks)).length
  · rw [if_pos h]
    refine ⟨?_, fun _ => ⟨rfl, ?_⟩⟩
    · rw [List.length_take]
      exact Nat.min_le_left _ _
    · rw [List.length_take]
      exact Nat.min_eq_left (Nat.le_of_lt h)
  · rw [if_neg h]
    exact ⟨Nat.le_of_not_lt h, fun hc => absurd hc h⟩

/-- Witness for C1 at a concrete encoder, patient and budget where the full
text overflows the budget. -/
theorem build_context_token_budget_witness :
    5 < (wEncode (build_context_text wToday wPatient emptyRecords [])).length ∧
    (build_context wEncode wDecode wToday wPatient emptyRecords [] 5).1
      = wDecode ((wEncode (build_context_text wToday wPatient emptyRecords [])).take 5) ∧
    (build_context wEncode wDecode wToday wPatient emptyRecords [] 5).2 = 5 := by
  have h := (build_context_token_budget wEncode wDecode wToday wPatient
    emptyRecords [] 5).2 (by decide)
  exact ⟨by decide, h.1, h.2⟩

/-- The descending-score relation used by the sort steps, as the `Bool`
relation Lean elaborates for `mergeSort`. -/
def scoreDescBool (a b : SimilarChunk) : Bool :=
  decide (b.relevance_score ≤ a.relevance_score)

/-- `mergeSort` by descending score yields a descending `Pairwise` chain,
preserved by `take`. -/
theorem pairwise_desc_sort_take (l : List SimilarChunk) (k : Nat) :
    List.Pairwise (fun a b => b.relevance_score ≤ a.relevance_score)
      ((l.mergeSort (fun a b => b.relevance_score ≤ a.relevance_score)).take k) := by
  have hp : (l.mergeSort (fun a b => b.relevance_score ≤ a.relevance_score)).Pairwise
      (fun a b => decide (b.relevance_score ≤ a.relevance_score) = true) :=
    List.sorted_mergeSort
      (by
        intro a b c h1 h2
        simp only [decide_eq_true_eq] at *
        exact le_trans h2 h1)
      (by
        intro a b
        simp only [Bool.or_eq_true, decide_eq_true_eq]
        exact le_total _ _) l
  exact (List.Pairwise.sublist (List.take_sublist _ _) hp).imp
    (fun h => of_decide_eq_true h)

/-- Elements surviving the sort-and-truncate tail of the pipeline come from
the input list. -/
theorem mem_of_mem_sort_take {c : SimilarChunk} {l : List SimilarChunk} {k : Nat}
    (hc : c ∈ (l.mergeSort (fun a b => b.relevance_score ≤ a.relevance_score)).take k) :
    c ∈ l :=
  List.mem_mergeSort.mp (List.take_subset _ _ hc)

/-- **C2**: the list returned by `search_similar_chunks` contains only
fragments with `relevance_score ≥ min_score`, is sorted descending by
`relevance_score`, has length at most `k`, and — when `allowed_sources` is
given — only fragments whose `source_type` is allowed. -/
theorem search_similar_chunks_filter_sort_truncate (rows : List ApptRow)
    (k : Nat) (min_score : ℚ) (allowed_sources : Option (List String)) :
    (∀ c ∈ search_similar_chunks rows k min_score allowed_sources,
      min_score ≤ c.relevance_score) ∧
    List.Pairwise (fun a b => b.relevance_score ≤ a.relevance_score)
      (search_similar_chunks rows k min_score allowed_sources) ∧
    (search_similar_chunks rows k min_score allowed_sources).length ≤ k ∧
    (∀ allowed, allowed_sources = some allowed →
      ∀ c ∈ search_similar_chunks rows k min_score allowed_sources,
        c.source_type ∈ allowed) := by
  simp only [search_similar_chunks]
  cases allowed_sources with
  | none =>
    refine ⟨?_, pairwise_desc_sort_take _ _, ?_, ?_⟩
    · intro c hc
      exact of_decide_eq_true (List.mem_filter.mp (mem_of_mem_sort_take hc)).2
    · rw [List.length_take]
      exact Nat.min_le_left _ _
    · intro allowed h
      exact absurd h (by simp)
  | some allowed =>
    refine ⟨?_, pairwise_desc_sort_take _ _, ?_, ?_⟩
    · intro c hc
      exact of_decide_eq_true
        (List.mem_filter.mp (List.mem_filter.mp (mem_of_mem_sort_take hc)).1).2
    · rw [List.length_take]
      exact Nat.min_le_left _ _
    · intro allowed2 h c hc
      cases h
      have hmem := (List.mem_filter.mp (mem_of_mem_sort_take hc)).2
      simpa using hmem

/-- Witness for C2 at a concrete row list with `allowed_sources` given. -/
theorem search_similar_chunks_filter_sort_truncate_witness :
    (0 : ℚ) ≤ SimilarChunk.relevance_score
      (SimilarChunk.mk "appointment" 10 1 "Control" none 0) ∧
    SimilarChunk.source_type (SimilarChunk.mk "appointment" 10 1 "Control" none 0)
      ∈ ["appointment"] ∧
    (search_similar_chunks [wRow] 15 0 (some ["appointment"])).length ≤ 15 := by
  have h := search_similar_chunks_filter_sort_truncate [wRow] 15 0 (some ["appointment"])
  have hs : search_similar_chunks [wRow] 15 0 (some ["appointment"]) =
      [SimilarChunk.mk "appointment" 10 1 "Control" none 0] := by
    simp [search_similar_chunks, wRow, MAX_PER_TABLE]
  refine ⟨h.1 _ ?_, h.2.2.2 ["appointment"] rfl _ ?_, h.2.2.1⟩ <;> rw [hs] <;>
    exact List.mem_singleton.mpr rfl

/-- **C10**: for every strictly positive `min_score` (including the default
0.3), `search_similar_chunks` returns the empty list: the implemented query
scores every candidate row exactly 0.0, so the min-score filter removes all
candidates. -/
theorem search_similar_chunks_empty_for_positive_min_score (rows : List ApptRow)
    (k : Nat) (min_score : ℚ) (allowed_sources : Option (List String))
    (h : 0 < min_score) :
    search_similar_chunks rows k min_score allowed_sources = [] := by
  simp only [search_similar_chunks]
  have hfilter : ∀ l : List SimilarChunk, (∀ c ∈ l, c.relevance_score = 0) →
      l.filter (fun c => min_score ≤ c.relevance_score) = [] := by
    intro l hl
    induction l with
    | nil => rfl
    | cons x xs ih =>
      have hx := hl x (List.mem_cons_self _ _)
      simp [List.filter_cons, hx, not_le.mpr h,
        ih (fun c hc => hl c (List.mem_cons_of_mem _ hc))]
  have hmem : ∀ c ∈ (List.take (min k MAX_PER_TABLE) rows).map
      (fun row => SimilarChunk.mk "appointment" row.source_id
        row.patient_id row.text row.date 0),
      c.relevance_score = 0 := by
    intro c hc
    obtain ⟨row, -, rfl⟩ := List.mem_map.mp hc
    rfl
  cases allowed_sources with
  | none =>
    rw [hfilter _ hmem]
    simp
  | some allowed =>
    rw [hfilter _ hmem]
    simp

/-- Witness for C10 at the default `min_score = 0.3` and a nonempty row
list. -/
theorem search_similar_chunks_empty_for_positive_min_score_witness :
    search_similar_chunks [wRow] 15 (3/10) none = [] :=
  search_similar_chunks_empty_for_positive_min_score [wRow] 15 (3/10) none
    (by norm_num)

/-- **C3**: if the generation capability raises on every invocation, the
query pipeline still returns a success outcome after exactly 2 generation
attempts, with the deterministic extractive fallback answer, confidence
0.65, the fallback model marker, and `fallback_mode = true` in the
metadata. -/
theorem query_patient_fallback_on_generation_failure
    (patient_info : PatientInfo) (clinical_data : ClinicalDataResult)
    (vector : Except String (List SimilarChunk))
    (run : Nat → Except LLMError LLMResponse) (elapsed_ms : Int)
    (input_data : QueryInput)
    (hraise : ∀ n, ∃ e, run n = Except.error e)
    (htotal : clinical_data.records.appointments.length +
      clinical_data.records.medical_records.length +
      clinical_data.records.prescriptions.length +
      clinical_data.records.diagnoses.length +
      (match vector with
        | Except.error _ => []
        | Except.ok l => l).length ≠ 0) :
    (query_patient (Except.ok (some patient_info, clinical_data)) vector run
      elapsed_ms input_data).status = "success" ∧
    (query_patient (Except.ok (some patient_info, clinical_data)) vector run
      elapsed_ms input_data).answerText
      = some (generate_fallback_response clinical_data.records input_data.question) ∧
    (query_patient (Except.ok (some patient_info, clinical_data)) vector run
      elapsed_ms input_data).answerConfidence = some (65/100) ∧
    (query_patient (Except.ok (some patient_info, clinical_data)) vector run
      elapsed_ms input_data).answerModel = some "fallback-system" ∧
    ((query_patient (Except.ok (some patient_info, clinical_data)) vector run
      elapsed_ms input_data).meta).map MetadataOut.fallback_mode
      = some (some true) ∧
    (llm_retry_loop run 0 none).2 = 2 := by
  obtain ⟨e1, h1⟩ := hraise 1
  obtain ⟨e2, h2⟩ := hraise 2
  have hloop : llm_retry_loop run 0 none = (LlmLoopResult.fallback, 2) := by
    simp [llm_retry_loop, llm_loop_aux, max_attempts, h1, h2]
  simp [query_patient, hloop, htotal, QueryResult.status, QueryResult.answerText,
    QueryResult.answerConfidence, QueryResult.answerModel, QueryResult.meta]

/-- Witness for C3 with a concrete always-raising generator and a bundle
holding one appointment. -/
theorem query_patient_fallback_on_generation_failure_witness :
    (query_patient (Except.ok (some wPatient, wClinical)) (Except.ok [])
      wErrGen 0 wInput).status = "success" ∧
    (query_patient (Except.ok (some wPatient, wClinical)) (Except.ok [])
      wErrGen 0 wInput).answerText
      = some (generate_fallback_response wClinical.records wInput.question) ∧
    (query_patient (Except.ok (some wPatient, wClinical)) (Except.ok [])
      wErrGen 0 wInput).answerConfidence = some (65/100) ∧
    (query_patient (Except.ok (some wPatient, wClinical)) (Except.ok [])
      wErrGen 0 wInput).answerModel = some "fallback-system" ∧
    ((query_patient (Except.ok (some wPatient, wClinical)) (Except.ok [])
      wErrGen 0 wInput).meta).map MetadataOut.fallback_mode = some (some true) ∧
    (llm_retry_loop wErrGen 0 none).2 = 2 :=
  query_patient_fallback_on_generation_failure wPatient wClinical (Except.ok [])
    wErrGen 0 wInput (fun _ => ⟨{ message := "boom" }, rfl⟩) (by decide)

/-- **C4**: with all four clinical collections empty and no retrieved
fragments, the orchestrator short-circuits to a Success outcome with
confidence exactly 1.0 and model_used exactly `"system"`, and the result
does not depend on the generation capability (it is never invoked). -/
theorem query_patient_no_data_short_circuit
    (patient_info : PatientInfo) (clinical_data : ClinicalDataResult)
    (run run2 : Nat → Except LLMError LLMResponse) (elapsed_ms : Int)
    (input_data : QueryInput)
    (ha : clinical_data.records.appointments = [])
    (hm : clinical_data.records.medical_records = [])
    (hp : clinical_data.records.prescriptions = [])
    (hd : clinical_data.records.diagnoses = []) :
    (query_patient (Except.ok (some patient_info, clinical_data)) (Except.ok [])
      run elapsed_ms input_data).status = "success" ∧
    (query_patient (Except.ok (some patient_info, clinical_data)) (Except.ok [])
      run elapsed_ms input_data).answerConfidence = some 1 ∧
    (query_patient (Except.ok (some patient_info, clinical_data)) (Except.ok [])
      run elapsed_ms input_data).answerModel = some "system" ∧
    query_patient (Except.ok (some patient_info, clinical_data)) (Except.ok [])
      run elapsed_ms input_data
      = query_patient (Except.ok (some patient_info, clinical_data)) (Except.ok [])
        run2 elapsed_ms input_data := by
  simp [query_patient, ha, hm, hp, hd, QueryResult.status,
    QueryResult.answerConfidence, QueryResult.answerModel]

/-- Witness for C4 with two observably different generation capabilities. -/
theorem query_patient_no_data_short_circuit_witness :
    (query_patient (Except.ok (some wPatient, wClinicalEmpty)) (Except.ok [])
      wErrGen 0 wInput).status = "success" ∧
    (query_patient (Except.ok (some wPatient, wClinicalEmpty)) (Except.ok [])
      wErrGen 0 wInput).answerConfidence = some 1 ∧
    (query_patient (Except.ok (some wPatient, wClinicalEmpty)) (Except.ok [])
      wErrGen 0 wInput).answerModel = some "system" ∧
    query_patient (Except.ok (some wPatient, wClinicalEmpty)) (Except.ok [])
      wErrGen 0 wInput
      = query_patient (Except.ok (some wPatient, wClinicalEmpty)) (Except.ok [])
        wOkGen 0 wInput :=
  query_patient_no_data_short_circuit wPatient wClinicalEmpty
    wErrGen wOkGen 0 wInput rfl rfl rfl rfl

/-- **C5**: `determine_status` returns `"no_data"` whenever the trimmed
context is shorter than 20 characters, regardless of the answer; returns
`"no_data"` whenever an absence phrase occurs in the 100-character leading
window of the lowercased answer, even with a long context; and returns
`"success"` in every other case. -/
theorem determine_status_classification (answer_text context : String) :
    ((pyStrip context).length < 20 → determine_status answer_text context = "no_data") ∧
    (status_no_data_indicators.any
        (fun ind => strContains (pySlice (pyLower answer_text) 100) ind) = true →
      determine_status answer_text context = "no_data") ∧
    (¬ (pyStrip context).length < 20 →
      status_no_data_indicators.any
        (fun ind => strContains (pySlice (pyLower answer_text) 100) ind) = false →
      determine_status answer_text context = "success") := by
  refine ⟨?_, ?_, ?_⟩
  · intro h
    simp [determine_status, h]
  · intro h
    by_cases hc : (pyStrip context).length < 20
    · simp [determine_status, hc]
    · simp [determine_status, hc, h]
  · intro h1 h2
    simp [determine_status, h1, h2]

/-- Witness for C5: a short context, an absence phrase with ample context,
and a plain success case. -/
theorem determine_status_classification_witness :
    determine_status "respuesta cualquiera" "" = "no_data" ∧
    determine_status "No hay información disponible sobre eso"
      "contexto clínico suficientemente largo" = "no_data" ∧
    determine_status "El paciente tiene dos citas"
      "contexto clínico suficientemente largo" = "success" :=
  ⟨(determine_status_classification "respuesta cualquiera" "").1 (by decide),
   (determine_status_classification "No hay información disponible sobre eso"
     "contexto clínico suficientemente largo").2.1 (by decide),
   (determine_status_classification "El paciente tiene dos citas"
     "contexto clínico suficientemente largo").2.2 (by decide) (by decide)⟩

/-- The answer text of the C6 scenario: the model reports absence of data. -/
def c6Answer : String :=
  "No hay información disponible sobre las citas del paciente."

/-- A generation capability returning the C6 answer. -/
def c6Run : Nat → Except LLMError LLMResponse :=
  fun _ => Except.ok
    { text := c6Answer
      confidence := 4/10
      model_used := "gpt-4o-mini"
      tokens_used := 120 }

/-- A context long enough that the classifier is not short-circuited by the
context-length rule. -/
def c6Context : String :=
  "### INFORMACIÓN BÁSICA DEL PACIENTE Nombre: Juan García"

/-- **C6 counterexample**: a run whose generated answer the classifier
judges `"no_data"` still yields the `status = "success"` response shape (the
pipeline never produces a `no_data` variant): `determine_status` is not
consulted by `query_patient`. -/
theorem determine_status_no_data_not_propagated :
    determine_status c6Answer c6Context = "no_data" ∧
    (query_patient (Except.ok (some wPatient, wClinical)) (Except.ok []) c6Run 0
      wInput).status = "success" ∧
    (query_patient (Except.ok (some wPatient, wClinical)) (Except.ok []) c6Run 0
      wInput).answerText = some c6Answer ∧
    "success" ≠ "no_data" :=
  ⟨by decide, by decide, by decide, by decide⟩

/-- **C6 amended**: for every query whose generated answer the classifier
would judge `"no_data"`, the outcome returned to the caller is nevertheless
the `status = "success"` variant carrying the model's literal answer text:
`query_patient` does not consult `determine_status`, and no `no_data`
variant exists in its response shapes. -/
theorem query_patient_success_despite_no_data_classification
    (patient_info : PatientInfo) (clinical_data : ClinicalDataResult)
    (vector : Except String (List SimilarChunk))
    (run : Nat → Except LLMError LLMResponse) (elapsed_ms : Int)
    (input_data : QueryInput) (context : String) (r : LLMResponse)
    (htotal : clinical_data.records.appointments.length +
      clinical_data.records.medical_records.length +
      clinical_data.records.prescriptions.length +
      clinical_data.records.diagnoses.length +
      (match vector with
        | Except.error _ => []
        | Except.ok l => l).length ≠ 0)
    (hrun : run 1 = Except.ok r)
    (hne : r.text ≠ "")
    (hlen : ¬ (pyStrip r.text).length < 10)
    (_hclass : determine_status r.text context = "no_data") :
    (query_patient (Except.ok (some patient_info, clinical_data)) vector run
      elapsed_ms input_data).status = "success" ∧
    (query_patient (Except.ok (some patient_info, clinical_data)) vector run
      elapsed_ms input_data).answerText = some r.text := by
  have hloop : llm_retry_loop run 0 none = (LlmLoopResult.use r, 1) := by
    simp [llm_retry_loop, llm_loop_aux, max_attempts, hrun, hne, hlen]
  simp [query_patient, hloop, htotal, QueryResult.status, QueryResult.answerText]

/-- Witness for the amended C6 at the concrete C6 scenario. -/
theorem query_patient_success_despite_no_data_classification_witness :
    (query_patient (Except.ok (some wPatient, wClinical)) (Except.ok []) c6Run 0
      wInput).status = "success" ∧
    (query_patient (Except.ok (some wPatient, wClinical)) (Except.ok []) c6Run 0
      wInput).answerText = some c6Answer :=
  query_patient_success_despite_no_data_classification wPatient wClinical
    (Except.ok []) c6Run 0 wInput c6Context
    { text := c6Answer
      confidence := 4/10
      model_used := "gpt-4o-mini"
      tokens_used := 120 }
    (by decide) rfl (by decide) (by decide) (by decide)

/-- `s[:n]` never exceeds `n` characters. -/
theorem pySlice_length_le (s : String) (n : Nat) : (pySlice s n).length ≤ n := by
  show (s.toList.take n).length ≤ n
  rw [List.length_take]
  exact Nat.min_le_left _ _

/-- **C7 counterexample**: the sources list the endpoint actually returns is
built by `build_sources_from_real_data`, and with one fragment and one
appointment its first entry is tagged `"appointment"` — not
`"vector_search"` — and no entry is tagged `"clinical_record"`. -/
theorem build_sources_from_real_data_appointments_first :
    (build_sources_from_real_data wRecords [wChunk] 1).map QuerySource.type
      = ["appointment", "vector_search"] ∧
    ((build_sources_from_real_data wRecords [wChunk] 1).map QuerySource.type).head?
      ≠ some "vector_search" ∧
    ((build_sources_from_real_data wRecords [wChunk] 1).map QuerySource.type).contains
      "clinical_record" = false :=
  ⟨by decide, by decide, by decide⟩

/-- **C7 amended**: the compositor's `build_sources` (in `rag_context.py`)
has the claimed shape — one `"vector_search"` entry per fragment (carrying
the fragment's provenance fields and a ≤250-character snippet) followed by
one `"clinical_record"` entry per appointment; with at least one fragment
and one appointment it has ≥ 2 entries and starts with a `"vector_search"`
entry.  The endpoint's outward response, however, uses
`build_sources_from_real_data`, which orders appointments, diagnoses and
prescriptions before vector fragments (see the counterexample). -/
theorem build_sources_shape (similar_chunks : List SimilarChunk)
    (records : ClinicalRecords) :
    (build_sources similar_chunks records).take similar_chunks.length
      = similar_chunks.map mkVectorSource ∧
    (build_sources similar_chunks records).drop similar_chunks.length
      = records.appointments.map mkApptSource ∧
    (build_sources similar_chunks records).length
      = similar_chunks.length + records.appointments.length ∧
    (∀ e ∈ (build_sources similar_chunks records).take similar_chunks.length,
      e.type = "vector_search" ∧ e.text_snippet.length ≤ 250) ∧
    (∀ e ∈ (build_sources similar_chunks records).drop similar_chunks.length,
      e.type = "clinical_record" ∧ e.text_snippet.length ≤ 250) ∧
    (similar_chunks ≠ [] →
      ((build_sources similar_chunks records).map SourceRec.type).head?
        = some "vector_search") ∧
    (similar_chunks ≠ [] → records.appointments ≠ [] →
      2 ≤ (build_sources similar_chunks records).length) := by
  have htake : (build_sources similar_chunks records).take similar_chunks.length
      = similar_chunks.map mkVectorSource := by
    unfold build_sources
    exact List.take_left' (List.length_map _ _)
  have hdrop : (build_sources similar_chunks records).drop similar_chunks.length
      = records.appointments.map mkApptSource := by
    unfold build_sources
    exact List.drop_left' (List.length_map _ _)
  refine ⟨htake, hdrop, by simp [build_sources], ?_, ?_, ?_, ?_⟩
  · intro e he
    rw [htake] at he
    obtain ⟨c, -, rfl⟩ := List.mem_map.mp he
    exact ⟨rfl, pySlice_length_le _ _⟩
  · intro e he
    rw [hdrop] at he
    obtain ⟨a, -, rfl⟩ := List.mem_map.mp he
    exact ⟨rfl, pySlice_length_le _ _⟩
  · intro h
    cases similar_chunks with
    | nil => exact absurd rfl h
    | cons c cs => simp [build_sources, mkVectorSource]
  · intro h1 h2
    have l1 := List.length_pos.mpr h1
    have l2 := List.length_pos.mpr h2
    simp only [build_sources, List.length_append, List.length_map]
    omega

/-- Witness for the amended C7 at one fragment and one appointment. -/
theorem build_sources_shape_witness :
    ((build_sources [wChunk] wRecords).map SourceRec.type).head?
      = some "vector_search" ∧
    2 ≤ (build_sources [wChunk] wRecords).length := by
  have h := build_sources_shape [wChunk] wRecords
  exact ⟨h.2.2.2.2.2.1 (by decide), h.2.2.2.2.2.2 (by decide) (by decide)⟩

/-- **C8 counterexample**: at `query_time_sec = 0.001234` the metadata's
`query_time_ms` is `1.23` — `round(x*1000, 2)`, two decimal places — which
lies strictly between the consecutive integers 1 and 2, so it is not the
elapsed time rounded to a whole number of milliseconds. -/
theorem build_metadata_query_time_ms_fractional :
    (build_metadata emptyRecords [] (1234/1000000) 7).query_time_ms = 123/100 ∧
    (1 : ℚ) < (build_metadata emptyRecords [] (1234/1000000) 7).query_time_ms ∧
    (build_metadata emptyRecords [] (1234/1000000) 7).query_time_ms < 2 := by
  have hq : (build_metadata emptyRecords [] (1234/1000000) 7).query_time_ms
      = pyRound ((1234/1000000 : ℚ) * 1000) 2 := rfl
  have h100 : ((1234/1000000 : ℚ) * 1000) * (10:ℚ) ^ (2:ℕ) = 617/5 := by
    norm_num
  have hfloor : ⌊(617/5 : ℚ)⌋ = 123 := by
    rw [Int.floor_eq_iff]
    constructor <;> norm_num
  have hround : pyRound ((1234/1000000 : ℚ) * 1000) 2 = 123/100 := by
    simp only [pyRound, pyRoundHalfEven, h100, hfloor]
    rw [if_pos (by norm_num)]
    norm_num
  rw [hq, hround]
  refine ⟨rfl, by norm_num, by norm_num⟩

/-- **C8 amended**: `build_metadata` returns the total record count over the
four collections, the fragment count, `round(query_time_sec*1000, 2)` —
milliseconds kept to two decimal places, an integer only when the product
is one — the given token count, and `sources_used` = fragments +
appointments; it is a pure function of these inputs. -/
theorem build_metadata_fields (records : ClinicalRecords)
    (similar_chunks : List SimilarChunk) (query_time_sec : ℚ)
    (context_tokens : Nat) :
    (build_metadata records similar_chunks query_time_sec
      context_tokens).total_records_analyzed
      = records.appointments.length + records.medical_records.length +
        records.prescriptions.length + records.diagnoses.length ∧
    (build_metadata records similar_chunks query_time_sec
      context_tokens).vector_chunks_retrieved = similar_chunks.length ∧
    (build_metadata records similar_chunks query_time_sec
      context_tokens).query_time_ms = pyRound (query_time_sec * 1000) 2 ∧
    (build_metadata records similar_chunks query_time_sec
      context_tokens).context_tokens = context_tokens ∧
    (build_metadata records similar_chunks query_time_sec
      context_tokens).sources_used
      = similar_chunks.length + records.appointments.length ∧
    (∀ n : ℤ, query_time_sec * 1000 = (n : ℚ) →
      (build_metadata records similar_chunks query_time_sec
        context_tokens).query_time_ms = query_time_sec * 1000) := by
  refine ⟨rfl, rfl, rfl, rfl, rfl, ?_⟩
  intro n hn
  have hq : (build_metadata records similar_chunks query_time_sec
      context_tokens).query_time_ms = pyRound (query_time_sec * 1000) 2 := rfl
  rw [hq, hn]
  have h100 : ((n : ℚ)) * (10:ℚ) ^ (2:ℕ) = ((n * 100 : ℤ) : ℚ) := by
    push_cast
    ring
  simp only [pyRound, pyRoundHalfEven, h100, Int.floor_intCast, sub_self]
  rw [if_pos (by norm_num)]
  rw [div_eq_iff (by norm_num : ((10:ℚ) ^ (2:ℕ)) ≠ 0)]
  push_cast
  ring

/-- Witness for the amended C8 at whole seconds (the repository's own test
case: 120 s of elapsed time yields 120000 ms). -/
theorem build_metadata_fields_witness :
    (build_metadata wRecords [wChunk] 120 7).query_time_ms = (120 : ℚ) * 1000 ∧
    (build_metadata wRecords [wChunk] 120 7).sources_used = 2 :=
  ⟨(build_metadata_fields wRecords [wChunk] 120 7).2.2.2.2.2 120000 (by norm_num),
   (build_metadata_fields wRecords [wChunk] 120 7).2.2.2.2.1⟩

/-- **C9 counterexample**: `"a bc"` is nonempty, has 2 whitespace-separated
tokens and 3 distinct non-space characters — by the claim it should be
accepted — yet the validator rejects it (its stripped length 4 trips the
minimum-5-characters check the claim omits). -/
theorem validate_response_rejects_short_two_word_answer :
    validate_response (some "a bc") = false ∧
    ¬("a bc" = "" ∨ (pySplit "a bc").length < 2 ∨
      (pyCharSet ("a bc".toList.filter (fun c => c ≠ ' '))).length < 3) :=
  ⟨by decide, by decide⟩

/-- **C9 amended**: the validator accepts exactly the answers that are
nonempty, at least 5 characters once stripped, with at least 2
whitespace-separated tokens, at least 3 distinct non-space characters, and
at least one alphabetic character; and — when the generation call itself
succeeded — the facade raises its generation error exactly when the raw
(stripped) text fails this validation. -/
theorem validate_response_characterization (s question context : String)
    (g : GenDict) :
    (validate_response (some s) = true ↔
      (s ≠ "" ∧ 5 ≤ (pyStrip s).length ∧ 2 ≤ (pySplit (pyStrip s)).length ∧
        3 ≤ (pyCharSet ((pyStrip s).toList.filter (fun c => c ≠ ' '))).length ∧
        (pyStrip s).toList.any pyIsAlpha = true)) ∧
    ((∃ e, run_llm question context (Except.ok g) = Except.error e) ↔
      validate_response (some (pyStrip (g.text.getD ""))) = false) := by
  constructor
  · simp only [validate_response, optStrTruthy, Option.getD]
    split_ifs with h1 h2 h3 h4 h5
    · simp only [false_iff]
      rintro ⟨-, h5le, -, -, -⟩
      omega
    · simp only [false_iff]
      rintro ⟨-, -, hw, -, -⟩
      omega
    · simp only [false_iff]
      rintro ⟨-, -, -, hc, -⟩
      omega
    · exact ⟨fun _ => ⟨of_decide_eq_true h1, not_lt.mp h2, not_lt.mp h3,
        not_lt.mp h4, h5⟩, fun _ => rfl⟩
    · simp only [false_iff]
      rintro ⟨-, -, -, -, ha⟩
      exact h5 ha
    · simp only [false_iff]
      rintro ⟨hne, -, -, -, -⟩
      exact h1 (decide_eq_true hne)
  · constructor
    · rintro ⟨e, he⟩
      by_contra hv
      have hvt : validate_response (some (pyStrip (g.text.getD ""))) = true := by
        cases hb : validate_response (some (pyStrip (g.text.getD "")))
        · exact absurd hb hv
        · rfl
      simp [run_llm, hvt] at he
    · intro hv
      exact ⟨{ message := "Respuesta del LLM inválida o incoherente" },
        by simp [run_llm, hv]⟩

/-- Witness for the amended C9: a valid answer is accepted. -/
theorem validate_response_characterization_witness :
    validate_response (some "Paciente con dos citas registradas") = true :=
  (validate_response_characterization "Paciente con dos citas registradas"
    "q" "ctx" { text := none, model_used := none, tokens_used := none }).1.mpr
    (by decide)
